import Mathlib

set_option autoImplicit false
set_option linter.unusedVariables false

/-!
Shallow embedding of `bot.py` (pin-archive-2): the per-guild configuration
store with its in-process cache, the reaction-driven pin-promotion handler,
the pin-slot eviction helper, and the archive payload construction.
External side effects (channel sends, reactions, native pin/unpin, webhook
posts, console prints) are modelled as explicit effect traces; Python
exceptions escaping a handler are modelled with `Except`.
-/

/-- Config values stored by the bot: the program stores channel ids and
reaction thresholds as Python ints and webhook URLs as strings
(`pickle` round-trips them unchanged). -/
inductive ConfigValue where
  | int (i : Int)
  | str (s : String)
  deriving DecidableEq, Repr

/-- First-match association-list lookup keyed by (guild id, key). This models
both the Python dict cache (`config_cache`) and the one-file-per-(guild, key)
pickle store on disk. -/
def storeLookup {α : Type} : List ((Nat × String) × α) → Nat → String → Option α
  | [], _, _ => none
  | (k, v) :: rest, g, key => if k = (g, key) then some v else storeLookup rest g key

/-- `bot.py guild_save_config`: persist `value` under `ConfigPath/guild_id/key`,
overwriting any previous file (modelled by shadowing in the association list). -/
def guild_save_config (store : List ((Nat × String) × ConfigValue)) (guild_id : Nat)
    (key : String) (value : ConfigValue) : List ((Nat × String) × ConfigValue) :=
  ((guild_id, key), value) :: store

/-- `bot.py guild_read_config`: unpickle the per-(guild, key) file;
`FileNotFoundError` yields Python `None`, modelled as `none`. -/
def guild_read_config (store : List ((Nat × String) × ConfigValue)) (guild_id : Nat)
    (key : String) : Option ConfigValue :=
  storeLookup store guild_id key

/-- `MainCog` state: the in-process config cache and the persisted pickle
store. A cache entry maps (guild, key) to the Python value cached there, which
may be `None` (`none`) when `read_config` cached the result of an absent read. -/
structure CogState where
  config_cache : List ((Nat × String) × Option ConfigValue)
  store : List ((Nat × String) × ConfigValue)
  deriving DecidableEq, Repr

/-- Result of `MainCog.read_config`: the returned value (`none` models Python
`None`), the cog state afterwards, and whether the persisted store was
consulted during this read. -/
structure ReadResult where
  value : Option ConfigValue
  state : CogState
  consulted_store : Bool
  deriving DecidableEq, Repr

/-- `MainCog.read_config`: a cache hit returns the cached value (a cached
`None` included); on a miss, `guild_read_config` is consulted and its result —
absence included — is written into the cache before being returned. -/
def read_config (s : CogState) (guild : Nat) (key : String) : ReadResult :=
  match storeLookup s.config_cache guild key with
  | some v => ⟨v, s, false⟩
  | none =>
    ⟨guild_read_config s.store guild key,
     { s with
        config_cache := ((guild, key), guild_read_config s.store guild key) :: s.config_cache },
     true⟩

/-- `MainCog.save_config`: update the cache entry and persist the value through
`guild_save_config`. -/
def save_config (s : CogState) (guild : Nat) (key : String) (value : ConfigValue) : CogState :=
  { config_cache := ((guild, key), some value) :: s.config_cache,
    store := guild_save_config s.store guild key value }

def DEFAULT_REACTS : Int := 7

/-- `MainCog.get_react_count`: the stored `reaction_count` when present, else
`DEFAULT_REACTS`. The program only stores ints under this key (`setreactcount`
has an `int` converter), so the value is read as an `Int`. -/
def get_react_count (s : CogState) (guild : Nat) : Int × CogState :=
  match read_config s guild "reaction_count" with
  | ⟨some (ConfigValue.int n), s2, _⟩ => (n, s2)
  | ⟨_, s2, _⟩ => (DEFAULT_REACTS, s2)

/-- Test-harness operation from the spec's round-trip property: drop the
in-memory cache entries for (guild, key), leaving the persisted store intact
(the simulated cache eviction; the program itself never evicts). -/
def cacheEvictEntry (s : CogState) (guild : Nat) (key : String) : CogState :=
  { s with config_cache := s.config_cache.filter (fun p => decide (p.fst ≠ (guild, key))) }

structure Attachment where
  filename : String
  url : String
  deriving DecidableEq, Repr

/-- A platform-rendered embed carried on the original message. `url = none`
models `discord.Embed.Empty` (unset); `thumbnailUrl = none` models an unset
`thumbnail.url`. -/
structure MsgEmbed where
  url : Option String
  thumbnailUrl : Option String
  deriving DecidableEq, Repr

/-- One reaction aggregate on a message: its emoji, the reaction count, and
whether the bot's own identity is among the reactors (`reaction.me`). -/
structure Reaction where
  emoji : String
  count : Nat
  me : Bool
  deriving DecidableEq, Repr

/-- The slice of `discord.Message` that `bot.py` reads. -/
structure Message where
  id : Nat
  channelId : Nat
  guildId : Nat
  authorName : String
  avatarUrl : String
  content : String
  createdAt : Nat
  channelName : String
  reactions : List Reaction
  attachments : List Attachment
  embeds : List MsgEmbed
  deriving DecidableEq, Repr

/-- The embed `archive_message` constructs for the outbound payload. -/
structure ArchiveEmbed where
  url : String
  description : String
  timestamp : Nat
  color : Nat
  authorName : String
  authorUrl : String
  authorIconUrl : String
  footerText : String
  image : Option String
  thumbnail : Option String
  fields : List (String × String)
  deriving DecidableEq, Repr

/-- The keyword arguments of the `webhook.send(**webhook_message)` call: the
content line, the `wait` flag, the freshly built embed (first element of the
Python `embeds` list) and the original-message embeds carried through after
the dedup filter (the remaining elements). -/
structure WebhookPayload where
  content : String
  wait : Bool
  builtEmbed : ArchiveEmbed
  carriedEmbeds : List MsgEmbed
  deriving DecidableEq, Repr

/-- Externally visible side effects of the handlers, in program order. -/
inductive Effect where
  | channelSend (channelId : Nat) (text : String)
  | addReaction (messageId : Nat) (emoji : String)
  | nativePin (messageId : Nat)
  | nativeUnpin (messageId : Nat)
  | webhookSend (url : String) (payload : WebhookPayload)
  | consoleLog (text : String)
  deriving DecidableEq, Repr

/-- A Python exception escaping a handler. -/
inductive PyError where
  | attributeError (msg : String)
  deriving DecidableEq, Repr

/-- `needle` is a leading segment of `haystack` (on character lists). -/
def charsPre : List Char → List Char → Bool
  | [], _ => true
  | _ :: _, [] => false
  | a :: as, b :: bs => a == b && charsPre as bs

/-- `needle` occurs contiguously inside `haystack` (on character lists). -/
def charsSub (needle : List Char) : List Char → Bool
  | [] => charsPre needle []
  | b :: bs => charsPre needle (b :: bs) || charsSub needle bs

/-- Python's `needle in haystack` on strings: contiguous substring test. -/
def strIn (needle haystack : String) : Bool :=
  charsSub needle.toList haystack.toList

/-- Python's `haystack.startswith(pre)`. -/
def strStarts (pre haystack : String) : Bool :=
  charsPre pre.toList haystack.toList

/-- Characters after the last dot of a filename, or `none` when the name has
no dot (mirrors the extension split `mimetypes.guess_type` performs). -/
def extAfterDot : List Char → Option (List Char)
  | [] => none
  | c :: rest =>
    if c = '.' then
      match extAfterDot rest with
      | some e => some e
      | none => some rest
    else extAfterDot rest

/-- Python `mimetypes.guess_type(filename)[0]`, restricted to a table of common
extensions: a recognized extension yields its MIME type, any other filename
yields `None` (`none`), exactly the case `mimetypes` cannot recognize. -/
def guess_type (filename : String) : Option String :=
  match extAfterDot filename.toList with
  | none => none
  | some e =>
    let ext := String.mk e
    if ext = "png" then some "image/png"
    else if ext = "jpg" then some "image/jpeg"
    else if ext = "jpeg" then some "image/jpeg"
    else if ext = "gif" then some "image/gif"
    else if ext = "bmp" then some "image/bmp"
    else if ext = "txt" then some "text/plain"
    else if ext = "pdf" then some "application/pdf"
    else if ext = "mp4" then some "video/mp4"
    else if ext = "zip" then some "application/zip"
    else none

def pushpin : String := "📌"

/-- `bot.py already_pinned`: `discord.utils.get(message.reactions, me=True)`
is not `None`, i.e. some reaction on the message is from the bot itself. -/
def already_pinned (m : Message) : Bool :=
  m.reactions.any (fun r => r.me)

/-- `bot.py set_pinned` on its successful path: leave the pushpin reaction as
the pinned marker. (The `HTTPException` fallback that reacts with the first
existing emoji instead is not exercised by any claim and is not modelled.) -/
def set_pinned (m : Message) : List Effect :=
  [Effect.addReaction m.id pushpin]

/-- Python truthiness of a config value: `None`, `0` and `""` are falsy. -/
def truthyConfig : Option ConfigValue → Bool
  | none => false
  | some (ConfigValue.int i) => decide (i ≠ 0)
  | some (ConfigValue.str u) => decide (u ≠ "")

/-- The string content of a config value (the program stores webhook URLs as
strings; the int case renders the value as Python would interpolate it). -/
def configStrOpt : Option ConfigValue → String
  | some (ConfigValue.str u) => u
  | some (ConfigValue.int i) => toString i
  | none => ""

def initNotice : String :=
  "Bot not initialized. Use +init <pin archive channel> to initialize."

/-- The permalink `archive_message` builds from guild, channel and message id. -/
def message_url (m : Message) : String :=
  "https://discordapp.com/channels/" ++ toString m.guildId ++ "/"
    ++ toString m.channelId ++ "/" ++ toString m.id

/-- The fixed content line of the outbound payload. -/
def payloadContent (m : Message) : String :=
  "[Message from " ++ m.authorName ++ "](" ++ message_url m ++ ")"

/-- The embed as first constructed: permalink, text, timestamp, color, author
block and footer, before image selection and attachment link fields. -/
def baseEmbed (m : Message) : ArchiveEmbed :=
  { url := message_url m
    description := m.content
    timestamp := m.createdAt
    color := 0x7289da
    authorName := m.authorName
    authorUrl := message_url m
    authorIconUrl := m.avatarUrl
    footerText := "Sent in " ++ m.channelName
    image := none
    thumbnail := none
    fields := [] }

/-- The attachment scan of `archive_message`: take the first attachment whose
guessed content type starts with `image/` as the embed image. When
`guess_type` yields `None`, the Python source calls `.startswith` on `None`
and raises `AttributeError`. -/
def scanAttachments (e : ArchiveEmbed) : List Attachment → Except PyError ArchiveEmbed
  | [] => Except.ok e
  | a :: rest =>
    match guess_type a.filename with
    | none => Except.error (PyError.attributeError "NoneType object has no attribute startswith")
    | some ty =>
      if strStarts "image/" ty then Except.ok { e with image := some a.url }
      else scanAttachments e rest

/-- Image selection of `archive_message`: with platform embeds present,
inspect the first embed's thumbnail — a truthy thumbnail URL becomes the main
image when it occurs in the message text, the secondary thumbnail otherwise;
with no platform embeds but attachments present, scan the attachments. -/
def selectImage (e : ArchiveEmbed) (m : Message) : Except PyError ArchiveEmbed :=
  match m.embeds with
  | e0 :: _ =>
    match e0.thumbnailUrl with
    | none => Except.ok e
    | some turl =>
      if turl = "" then Except.ok e
      else if strIn turl m.content then Except.ok { e with image := some turl }
      else Except.ok { e with thumbnail := some turl }
  | [] =>
    match m.attachments with
    | [] => Except.ok e
    | a :: rest => scanAttachments e (a :: rest)

/-- The original-message embeds carried into the payload: keep an embed when
its `url` is `discord.Embed.Empty` or does not occur in the message content
(`embed.url is discord.Embed.Empty or embed.url not in message.content`). -/
def carriedEmbedsOf (m : Message) : List MsgEmbed :=
  m.embeds.filter fun e =>
    match e.url with
    | none => true
    | some u => ! strIn u m.content

/-- `MainCog.archive_message`: with no archive channel configured, notify the
originating channel with the instructional notice; with a falsy webhook
config, print `No webhook???` to the console and stop; otherwise build the
embed (image selection may raise), attach the link fields, filter the carried
embeds, and post the payload through the webhook. -/
def archive_message (s : CogState) (m : Message) : Except PyError (List Effect × CogState) :=
  match (read_config s m.guildId "archive_channel").value with
  | none =>
    Except.ok ([Effect.channelSend m.channelId initNotice],
      (read_config s m.guildId "archive_channel").state)
  | some _ =>
    if truthyConfig (read_config (read_config s m.guildId "archive_channel").state
        m.guildId "webhook_url").value then
      match selectImage (baseEmbed m) m with
      | Except.error err => Except.error err
      | Except.ok embedImg =>
        Except.ok ([Effect.webhookSend
            (configStrOpt (read_config (read_config s m.guildId "archive_channel").state
              m.guildId "webhook_url").value)
            { content := payloadContent m
              wait := false
              builtEmbed := { embedImg with
                fields := m.attachments.map (fun a => ("🔗", a.url)) }
              carriedEmbeds := carriedEmbedsOf m }],
          (read_config (read_config s m.guildId "archive_channel").state
            m.guildId "webhook_url").state)
    else
      Except.ok ([Effect.consoleLog "No webhook???"],
        (read_config (read_config s m.guildId "archive_channel").state
          m.guildId "webhook_url").state)

/-- The comparison `raw_reaction.channel_id == self.read_config(guild,
"archive_channel")`: a Python `==` between an int and the stored value, false
against `None` or a non-int. -/
def channelMatchesConfig (channelId : Nat) (v : Option ConfigValue) : Bool :=
  match v with
  | some (ConfigValue.int c) => decide ((channelId : Int) = c)
  | _ => false

/-- The raw reaction event payload fields the handler reads. -/
structure RawReaction where
  channelId : Nat
  messageId : Nat
  deriving DecidableEq, Repr

/-- `MainCog.on_raw_reaction_add`. `guildId` is the guild of the resolved
channel (`channel.guild`); `fetched` is the result of `get_message_by_id`,
`none` when the live fetch failed with `NotFound` or `Forbidden` (both caught
inside the helper, which then returns `None`). The source then evaluates
`message.reactions` on that result unconditionally, so a failed fetch raises
`AttributeError`. Otherwise: skip events in the archive channel, find the
pushpin reaction, stop under the `already_pinned` guard, and on a count at or
above the guild threshold mark, natively pin, and archive the message. -/
def on_raw_reaction_add (s : CogState) (ev : RawReaction) (guildId : Nat)
    (fetched : Option Message) : Except PyError (List Effect × CogState) :=
  if channelMatchesConfig ev.channelId (read_config s guildId "archive_channel").value then
    Except.ok ([], (read_config s guildId "archive_channel").state)
  else
    match fetched with
    | none => Except.error (PyError.attributeError "NoneType object has no attribute reactions")
    | some message =>
      match message.reactions.find? (fun r => r.emoji == pushpin) with
      | none => Except.ok ([], (read_config s guildId "archive_channel").state)
      | some reaction =>
        if already_pinned message then
          Except.ok ([], (read_config s guildId "archive_channel").state)
        else if (get_react_count (read_config s guildId "archive_channel").state
            message.guildId).fst ≤ (reaction.count : Int) then
          match archive_message (get_react_count (read_config s guildId "archive_channel").state
              message.guildId).snd message with
          | Except.ok (archiveEffects, s3) =>
            Except.ok (set_pinned message ++ Effect.nativePin message.id :: archiveEffects, s3)
          | Except.error err => Except.error err
        else
          Except.ok ([], (get_react_count (read_config s guildId "archive_channel").state
            message.guildId).snd)

/-- `MainCog.maybe_unpin`: fetch the channel's pins (newest first); with more
than 48 entries, unpin the last (oldest) one; otherwise do nothing. -/
def maybe_unpin (pins : List Nat) : List Effect :=
  if 48 < pins.length then
    match pins.getLast? with
    | some p => [Effect.nativeUnpin p]
    | none => []
  else []

/-- Replay the pin-related effects onto a channel's newest-first pin list. -/
def applyPinEffect (pins : List Nat) : Effect → List Nat
  | Effect.nativePin m => m :: pins
  | Effect.nativeUnpin p => pins.erase p
  | _ => pins

def applyPinEffects (pins : List Nat) (es : List Effect) : List Nat :=
  es.foldl applyPinEffect pins

/-- Effects of a handler run; an escaped exception produces none. -/
def handlerEffects : Except PyError (List Effect × CogState) → List Effect
  | Except.ok (es, _) => es
  | Except.error _ => []

/-- Whether an exception escaped the handler run. -/
def handlerRaised : Except PyError (List Effect × CogState) → Bool
  | Except.error _ => true
  | Except.ok _ => false

def isWebhookSend : Effect → Bool
  | Effect.webhookSend _ _ => true
  | _ => false

def isChannelSend : Effect → Bool
  | Effect.channelSend _ _ => true
  | _ => false

def isNativePin : Effect → Bool
  | Effect.nativePin _ => true
  | _ => false

def isNativeUnpin : Effect → Bool
  | Effect.nativeUnpin _ => true
  | _ => false

def hasWebhookSend (es : List Effect) : Bool := es.any isWebhookSend

def hasChannelSend (es : List Effect) : Bool := es.any isChannelSend

def hasNativePin (es : List Effect) : Bool := es.any isNativePin

def hasNativeUnpin (es : List Effect) : Bool := es.any isNativeUnpin

/-- The payloads posted through the webhook in a trace, in order. -/
def sentPayloads (es : List Effect) : List WebhookPayload :=
  es.filterMap fun e =>
    match e with
    | Effect.webhookSend _ p => some p
    | _ => none

def emptyPayload : WebhookPayload :=
  { content := "", wait := false
    builtEmbed := baseEmbed ⟨0, 0, 0, "", "", "", 0, "", [], [], []⟩
    carriedEmbeds := [] }

def headPayload (es : List Effect) : WebhookPayload :=
  (sentPayloads es).headD emptyPayload

/-- The pushpin reaction count the handler reads from the fetched message
(0 when the message carries no pushpin reaction at all). -/
def pushpinCount (m : Message) : Nat :=
  match m.reactions.find? (fun r => r.emoji == pushpin) with
  | some r => r.count
  | none => 0

/-- The threshold value the handler actually compares against: the guild's
`reaction_count` read through the cog state as it stands after the handler's
own `archive_channel` lookup. -/
def handlerThreshold (s : CogState) (guildId : Nat) (m : Message) : Int :=
  (get_react_count (read_config s guildId "archive_channel").state m.guildId).fst

/-- The cog state after a successful handler run (dummy state on an error). -/
def resStateOf : Except PyError (List Effect × CogState) → CogState
  | Except.ok (_, s2) => s2
  | Except.error _ => { config_cache := [], store := [] }

/-- A cog started with an empty cache over an empty persisted store. -/
def emptyState : CogState := { config_cache := [], store := [] }

/-- A guild-1 cog state whose persisted store holds a complete configuration:
archive channel 100 and a webhook URL. -/
def configuredState : CogState :=
  { config_cache := []
    store := [((1, "archive_channel"), ConfigValue.int 100),
              ((1, "webhook_url"), ConfigValue.str "http://wh")] }

def c1Message : Message :=
  { id := 9, channelId := 2, guildId := 1, authorName := "alice", avatarUrl := "a"
    content := "hi", createdAt := 0, channelName := "general"
    reactions := [⟨"📌", 3, false⟩], attachments := [], embeds := [] }

def c2Message : Message :=
  { id := 9, channelId := 2, guildId := 1, authorName := "alice", avatarUrl := "a"
    content := "hi", createdAt := 0, channelName := "general"
    reactions := [⟨"📌", 9, true⟩], attachments := [], embeds := [] }

def c3Message : Message :=
  { id := 9, channelId := 6, guildId := 1, authorName := "eve", avatarUrl := "e"
    content := "hi", createdAt := 0, channelName := "general"
    reactions := [⟨"📌", 7, false⟩], attachments := [], embeds := [] }

def c3Pins : List Nat := List.range 49

def c3wMessage : Message :=
  { id := 9, channelId := 6, guildId := 1, authorName := "eve", avatarUrl := "e"
    content := "hi", createdAt := 0, channelName := "general"
    reactions := [], attachments := [], embeds := [] }

def c7State : CogState :=
  { config_cache := [], store := [((1, "archive_channel"), ConfigValue.int 100)] }

def c7Message : Message :=
  { id := 9, channelId := 2, guildId := 1, authorName := "bob", avatarUrl := "b"
    content := "hi", createdAt := 0, channelName := "general"
    reactions := [], attachments := [], embeds := [] }

def c8Url : String := "http://img.example/x.png"

def c8Message : Message :=
  { id := 9, channelId := 3, guildId := 1, authorName := "bob", avatarUrl := "b"
    content := "http://img.example/x.png", createdAt := 5, channelName := "pics"
    reactions := [], attachments := []
    embeds := [⟨some "http://img.example/x.png", some "http://img.example/x.png"⟩] }

def c9Message : Message :=
  { id := 9, channelId := 4, guildId := 1, authorName := "carol", avatarUrl := "c"
    content := "hello", createdAt := 9, channelName := "chat"
    reactions := [], attachments := [], embeds := [⟨none, none⟩] }

def c10Message : Message :=
  { id := 9, channelId := 5, guildId := 1, authorName := "dee", avatarUrl := "d"
    content := "notes attached", createdAt := 3, channelName := "docs"
    reactions := [], attachments := [⟨"notes.xyz", "http://files.example/notes.xyz"⟩]
    embeds := [] }

theorem charsPre_refl (l : List Char) : charsPre l l = true := by
  induction l with
  | nil => rfl
  | cons c cs ih => simp [charsPre, ih]

theorem charsSub_refl (l : List Char) : charsSub l l = true := by
  cases l with
  | nil => rfl
  | cons c cs => simp [charsSub, charsPre_refl]

theorem strIn_self (u : String) : strIn u u = true :=
  charsSub_refl u.toList

theorem storeLookup_filter_self {α : Type} (l : List ((Nat × String) × α)) (g : Nat)
    (key : String) :
    storeLookup (l.filter (fun p => !decide (p.fst = (g, key)))) g key = none := by
  induction l with
  | nil => rfl
  | cons hd tl ih =>
    obtain ⟨k, v⟩ := hd
    simp only [List.filter_cons] at ih ⊢
    by_cases h : k = (g, key)
    · simpa [h] using ih
    · simp [h, storeLookup, ih]

/-- C4: for every guild id, key and storable value, `save_config` followed by
`read_config` on the same (guild, key) returns that value; after the simulated
eviction of the in-memory cache entry the read reconsults the persisted store
(consulted_store is true) and still returns the same value. -/
theorem c4_config_roundtrip (s : CogState) (g : Nat) (k : String) (v : ConfigValue) :
    (read_config (save_config s g k v) g k).value = some v
    ∧ (read_config (cacheEvictEntry (save_config s g k v) g k) g k).value = some v
    ∧ (read_config (cacheEvictEntry (save_config s g k v) g k) g k).consulted_store = true := by
  refine ⟨?_, ?_, ?_⟩
  · simp [read_config, save_config, storeLookup]
  · simp [read_config, cacheEvictEntry, storeLookup_filter_self, save_config,
      guild_read_config, guild_save_config, storeLookup]
  · simp [read_config, cacheEvictEntry, storeLookup_filter_self, save_config,
      guild_read_config, guild_save_config, storeLookup]

/-- C6 counterexample: on an empty store, the first `read_config` for
(1, "archive_channel") consults the persisted store, but the second read for
the same pair with no intervening write returns the cached absence without
reconsulting storage — contradicting the claim that absence is recomputed
from storage on each miss. -/
theorem c6_counterexample :
    (read_config emptyState 1 "archive_channel").consulted_store = true
    ∧ (read_config (read_config emptyState 1 "archive_channel").state
        1 "archive_channel").consulted_store = false
    ∧ (read_config (read_config emptyState 1 "archive_channel").state
        1 "archive_channel").value = none := by
  decide

/-- C6 amended: a `read_config` cache miss that finds no persisted value does
populate the cache with the absent result; the subsequent read for the same
(guild, key) with no intervening write returns that cached absence without
reconsulting persisted storage. -/
theorem c6_amended_absence_cached (s : CogState) (g : Nat) (k : String)
    (hmiss : storeLookup s.config_cache g k = none)
    (habsent : storeLookup s.store g k = none) :
    (read_config s g k).consulted_store = true
    ∧ (read_config s g k).value = none
    ∧ (read_config (read_config s g k).state g k).consulted_store = false
    ∧ (read_config (read_config s g k).state g k).value = none := by
  refine ⟨?_, ?_, ?_, ?_⟩ <;>
    simp [read_config, hmiss, guild_read_config, habsent, storeLookup]

/-- Witness for C6's amended theorem at a concrete input: guild 1, key
"archive_channel", empty cache and store. -/
theorem c6_amended_witness :
    (read_config emptyState 1 "reaction_count").consulted_store = true
    ∧ (read_config emptyState 1 "reaction_count").value = none
    ∧ (read_config (read_config emptyState 1 "reaction_count").state
        1 "reaction_count").consulted_store = false
    ∧ (read_config (read_config emptyState 1 "reaction_count").state
        1 "reaction_count").value = none :=
  c6_amended_absence_cached emptyState 1 "reaction_count" (by decide) (by decide)

/-- C1: for every reaction-added event whose fetched message carries a pushpin
reaction count strictly below the threshold the handler reads for the guild
(default 7), the handler performs no native pin, no archive call, and in fact
no side effect at all, and raises nothing. -/
theorem c1_below_threshold_no_action (s : CogState) (ev : RawReaction) (g : Nat) (m : Message)
    (hbelow : (pushpinCount m : Int) < handlerThreshold s g m) :
    handlerRaised (on_raw_reaction_add s ev g (some m)) = false
    ∧ handlerEffects (on_raw_reaction_add s ev g (some m)) = [] := by
  unfold handlerThreshold at hbelow
  unfold on_raw_reaction_add
  by_cases hskip :
      channelMatchesConfig ev.channelId (read_config s g "archive_channel").value = true
  · simp [hskip, handlerRaised, handlerEffects]
  · cases hfind : m.reactions.find? (fun r => r.emoji == pushpin) with
    | none => simp [hskip, hfind, handlerRaised, handlerEffects]
    | some reaction =>
      by_cases hap : already_pinned m = true
      · simp [hskip, hfind, hap, handlerRaised, handlerEffects]
      · have hcnt : pushpinCount m = reaction.count := by
          unfold pushpinCount
          rw [hfind]
        rw [hcnt] at hbelow
        have hlt : ¬ ((get_react_count (read_config s g "archive_channel").state
            m.guildId).fst ≤ (reaction.count : Int)) := not_le.mpr hbelow
        simp [hskip, hfind, hap, hlt, handlerRaised, handlerEffects]

/-- Witness for C1 at a concrete input: empty store (threshold defaults to 7),
pushpin count 3 on the fetched message; the handler does nothing. -/
theorem c1_witness :
    handlerRaised (on_raw_reaction_add emptyState ⟨2, 9⟩ 1 (some c1Message)) = false
    ∧ handlerEffects (on_raw_reaction_add emptyState ⟨2, 9⟩ 1 (some c1Message)) = [] :=
  c1_below_threshold_no_action emptyState ⟨2, 9⟩ 1 c1Message (by decide)

/-- C2: for every message on which the already-pinned guard holds (some
reaction on the message is the bot's own), re-delivering a qualifying
reaction-added event (pushpin count at or above the handler's threshold)
produces no additional native pin, no archive call, no effect at all, and
raises nothing. -/
theorem c2_already_pinned_idempotent (s : CogState) (ev : RawReaction) (g : Nat) (m : Message)
    (hqual : handlerThreshold s g m ≤ (pushpinCount m : Int))
    (hp : already_pinned m = true) :
    handlerRaised (on_raw_reaction_add s ev g (some m)) = false
    ∧ handlerEffects (on_raw_reaction_add s ev g (some m)) = [] := by
  unfold on_raw_reaction_add
  by_cases hskip :
      channelMatchesConfig ev.channelId (read_config s g "archive_channel").value = true
  · simp [hskip, handlerRaised, handlerEffects]
  · cases hfind : m.reactions.find? (fun r => r.emoji == pushpin) with
    | none => simp [hskip, hfind, handlerRaised, handlerEffects]
    | some reaction => simp [hskip, hfind, hp, handlerRaised, handlerEffects]

/-- Witness for C2 at a concrete input: pushpin count 9 at default threshold 7,
with the bot's own reaction already present; the handler does nothing. -/
theorem c2_witness :
    handlerRaised (on_raw_reaction_add emptyState ⟨2, 9⟩ 1 (some c2Message)) = false
    ∧ handlerEffects (on_raw_reaction_add emptyState ⟨2, 9⟩ 1 (some c2Message)) = [] :=
  c2_already_pinned_idempotent emptyState ⟨2, 9⟩ 1 c2Message (by decide) (by decide)

/-- C5 (code bug in the source): when the live message fetch fails
(`get_message_by_id` catches NotFound/Forbidden and returns None), the handler
does not drop the event — it dereferences `message.reactions` on None and an
AttributeError escapes, for every event outside the archive channel. -/
theorem c5_fetch_failure_raises (s : CogState) (ev : RawReaction) (g : Nat)
    (hskip : channelMatchesConfig ev.channelId (read_config s g "archive_channel").value
      = false) :
    on_raw_reaction_add s ev g none
      = Except.error (PyError.attributeError "NoneType object has no attribute reactions") := by
  unfold on_raw_reaction_add
  simp [hskip]

/-- Witness for C5 at a concrete input: unconfigured guild, deleted message. -/
theorem c5_witness :
    on_raw_reaction_add emptyState ⟨2, 9⟩ 1 none
      = Except.error (PyError.attributeError "NoneType object has no attribute reactions") :=
  c5_fetch_failure_raises emptyState ⟨2, 9⟩ 1 (by decide)

/-- C7 counterexample: guild 1 has an archive channel configured but no
webhook. An archive attempt performs no webhook call but also sends no
instructional notification to the originating channel — the only effect is
the console log `No webhook???` — contradicting the claim that both
incomplete-configuration cases notify the channel. -/
theorem c7_counterexample :
    (read_config c7State 1 "archive_channel").value = some (ConfigValue.int 100)
    ∧ (read_config c7State 1 "webhook_url").value = none
    ∧ handlerRaised (archive_message c7State c7Message) = false
    ∧ hasChannelSend (handlerEffects (archive_message c7State c7Message)) = false
    ∧ hasWebhookSend (handlerEffects (archive_message c7State c7Message)) = false
    ∧ handlerEffects (archive_message c7State c7Message)
        = [Effect.consoleLog "No webhook???"] := by
  decide

/-- C7 amended: with the archive channel unset, `archive_message` sends the
exact instructional notice referencing the init command to the originating
channel and attempts no webhook call; with the archive channel set but the
webhook config falsy, it attempts no webhook call and sends nothing to the
channel, emitting only the console log `No webhook???`. -/
theorem c7_amended_incomplete_config (s : CogState) (m : Message) :
    ((read_config s m.guildId "archive_channel").value = none →
      archive_message s m
        = Except.ok ([Effect.channelSend m.channelId initNotice],
            (read_config s m.guildId "archive_channel").state))
    ∧ (∀ cv : ConfigValue,
        (read_config s m.guildId "archive_channel").value = some cv →
        truthyConfig (read_config (read_config s m.guildId "archive_channel").state
          m.guildId "webhook_url").value = false →
        archive_message s m
          = Except.ok ([Effect.consoleLog "No webhook???"],
              (read_config (read_config s m.guildId "archive_channel").state
                m.guildId "webhook_url").state)) := by
  constructor
  · intro h
    unfold archive_message
    simp [h]
  · intro cv h hw
    unfold archive_message
    simp [h, hw]

/-- Witness for C7's amended theorem: the unset-archive-channel branch at an
empty store, and the webhook-falsy branch at `c7State`. -/
theorem c7_amended_witness :
    archive_message emptyState c7Message
      = Except.ok ([Effect.channelSend c7Message.channelId initNotice],
          (read_config emptyState c7Message.guildId "archive_channel").state)
    ∧ archive_message c7State c7Message
      = Except.ok ([Effect.consoleLog "No webhook???"],
          (read_config (read_config c7State c7Message.guildId "archive_channel").state
            c7Message.guildId "webhook_url").state) :=
  ⟨(c7_amended_incomplete_config emptyState c7Message).1 (by decide),
   (c7_amended_incomplete_config c7State c7Message).2 (ConfigValue.int 100)
     (by decide) (by decide)⟩

/-- C8: for a message whose entire content is a non-empty URL that the
platform auto-expanded into an embed carrying that URL as its own URL and as
its thumbnail URL, a configured archive run posts exactly one payload whose
main image is that URL, and the auto-expanded embed is not duplicated as a
carried secondary embed. -/
theorem c8_autoexpanded_promoted (s : CogState) (m : Message) (u : String) (e : MsgEmbed)
    (cv : ConfigValue)
    (hu : u ≠ "")
    (hcontent : m.content = u)
    (hembeds : m.embeds = [e])
    (hthumb : e.thumbnailUrl = some u)
    (heurl : e.url = some u)
    (harch : (read_config s m.guildId "archive_channel").value = some cv)
    (hwh : truthyConfig (read_config (read_config s m.guildId "archive_channel").state
      m.guildId "webhook_url").value = true) :
    handlerRaised (archive_message s m) = false
    ∧ hasWebhookSend (handlerEffects (archive_message s m)) = true
    ∧ (headPayload (handlerEffects (archive_message s m))).builtEmbed.image = some u
    ∧ (headPayload (handlerEffects (archive_message s m))).carriedEmbeds = [] := by
  unfold archive_message
  simp [harch, hwh, selectImage, hembeds, hthumb, hu, hcontent, strIn_self, heurl,
    carriedEmbedsOf, handlerRaised, handlerEffects, hasWebhookSend, headPayload,
    sentPayloads, isWebhookSend]

/-- Witness for C8 at a concrete input: content and first-embed URL and
thumbnail all equal, guild fully configured. -/
theorem c8_witness :
    handlerRaised (archive_message configuredState c8Message) = false
    ∧ hasWebhookSend (handlerEffects (archive_message configuredState c8Message)) = true
    ∧ (headPayload (handlerEffects (archive_message configuredState c8Message))).builtEmbed.image
        = some c8Url
    ∧ (headPayload (handlerEffects (archive_message configuredState c8Message))).carriedEmbeds
        = [] :=
  c8_autoexpanded_promoted configuredState c8Message c8Url
    ⟨some "http://img.example/x.png", some "http://img.example/x.png"⟩
    (ConfigValue.int 100) (by decide) (by decide) (by decide) (by decide) (by decide)
    (by decide) (by decide)

/-- C9 counterexample: at a fully configured guild, a message whose single
platform embed has an unset (`Embed.Empty`) URL carries that embed through
into the payload — the claim that no embed with an empty URL appears among
the carried-through embeds is false of the code. -/
theorem c9_counterexample :
    handlerRaised (archive_message configuredState c9Message) = false
    ∧ (headPayload (handlerEffects (archive_message configuredState c9Message))).carriedEmbeds
        = [{ url := none, thumbnailUrl := none }]
    ∧ ({ url := none, thumbnailUrl := none } : MsgEmbed).url = none := by
  decide

/-- C9 amended: every original embed is carried through into the posted
payload except those whose own URL is set and textually present in the
message content; embeds with an unset URL are always carried through, and the
carried embeds all come from the original message. -/
theorem c9_amended_carry_filter (s : CogState) (m : Message) (es : List Effect) (s2 : CogState)
    (hrun : archive_message s m = Except.ok (es, s2)) :
    (∀ w p, Effect.webhookSend w p ∈ es → p.carriedEmbeds = carriedEmbedsOf m)
    ∧ (∀ e, e ∈ carriedEmbedsOf m → e ∈ m.embeds)
    ∧ (∀ e, e ∈ m.embeds →
        (e ∈ carriedEmbedsOf m
          ↔ e.url = none ∨ ∃ u, e.url = some u ∧ strIn u m.content = false)) := by
  refine ⟨?_, ?_, ?_⟩
  · intro w p hp
    unfold archive_message at hrun
    split at hrun
    · simp only [Except.ok.injEq, Prod.mk.injEq] at hrun
      obtain ⟨h1, -⟩ := hrun
      subst h1
      simp at hp
    · split at hrun
      · split at hrun
        · simp at hrun
        · simp only [Except.ok.injEq, Prod.mk.injEq] at hrun
          obtain ⟨h1, -⟩ := hrun
          subst h1
          simp only [List.mem_singleton, Effect.webhookSend.injEq] at hp
          rw [hp.2]
      · simp only [Except.ok.injEq, Prod.mk.injEq] at hrun
        obtain ⟨h1, -⟩ := hrun
        subst h1
        simp at hp
  · intro e he
    exact List.mem_of_mem_filter he
  · intro e he
    unfold carriedEmbedsOf
    rw [List.mem_filter]
    cases hurl : e.url with
    | none => simp [he, hurl]
    | some u => simp [he, hurl, Bool.not_eq_true']

/-- Witness for C9's amended theorem: the unset-URL embed of `c9Message` is
carried through on a concrete configured run. -/
theorem c9_amended_witness :
    ({ url := none, thumbnailUrl := none } : MsgEmbed) ∈ carriedEmbedsOf c9Message :=
  ((c9_amended_carry_filter configuredState c9Message
      (handlerEffects (archive_message configuredState c9Message))
      (resStateOf (archive_message configuredState c9Message)) (by rfl)).2.2
    { url := none, thumbnailUrl := none } (by decide)).mpr (Or.inl rfl)

theorem archive_message_no_unpin (s : CogState) (m : Message) (es : List Effect) (s2 : CogState)
    (hrun : archive_message s m = Except.ok (es, s2)) : hasNativeUnpin es = false := by
  unfold archive_message at hrun
  split at hrun
  · simp only [Except.ok.injEq, Prod.mk.injEq] at hrun
    obtain ⟨h1, -⟩ := hrun
    subst h1
    rfl
  · split at hrun
    · split at hrun
      · simp at hrun
      · simp only [Except.ok.injEq, Prod.mk.injEq] at hrun
        obtain ⟨h1, -⟩ := hrun
        subst h1
        rfl
    · simp only [Except.ok.injEq, Prod.mk.injEq] at hrun
      obtain ⟨h1, -⟩ := hrun
      subst h1
      rfl

theorem on_raw_no_unpin (s : CogState) (ev : RawReaction) (g : Nat)
    (fetched : Option Message) (es : List Effect) (s2 : CogState)
    (hrun : on_raw_reaction_add s ev g fetched = Except.ok (es, s2)) :
    hasNativeUnpin es = false := by
  unfold on_raw_reaction_add at hrun
  split at hrun
  · simp only [Except.ok.injEq, Prod.mk.injEq] at hrun
    obtain ⟨h1, -⟩ := hrun
    subst h1
    rfl
  · split at hrun
    · simp at hrun
    · split at hrun
      · simp only [Except.ok.injEq, Prod.mk.injEq] at hrun
        obtain ⟨h1, -⟩ := hrun
        subst h1
        rfl
      · split at hrun
        · simp only [Except.ok.injEq, Prod.mk.injEq] at hrun
          obtain ⟨h1, -⟩ := hrun
          subst h1
          rfl
        · split at hrun
          · split at hrun
            · rename_i archiveEffects s3 heq
              have h2 := archive_message_no_unpin _ _ _ _ heq
              simp only [Except.ok.injEq, Prod.mk.injEq] at hrun
              obtain ⟨h1, -⟩ := hrun
              subst h1
              simp only [hasNativeUnpin, set_pinned, List.any_append, List.any_cons,
                isNativeUnpin, List.any_nil, Bool.or_self, Bool.false_or] at h2 ⊢
              exact h2
            · simp at hrun
          · simp only [Except.ok.injEq, Prod.mk.injEq] at hrun
            obtain ⟨h1, -⟩ := hrun
            subst h1
            rfl

/-- C3 counterexample: a reaction-path promotion (`on_raw_reaction_add`) in a
channel holding 49 native pins performs no eviction at all before the new pin
— the successful run contains a native pin and no native unpin — and the pin
count immediately after the promotion is 50, exceeding 49. -/
theorem c3_counterexample :
    c3Pins.length = 49
    ∧ handlerRaised (on_raw_reaction_add configuredState ⟨6, 9⟩ 1 (some c3Message)) = false
    ∧ hasNativePin (handlerEffects
        (on_raw_reaction_add configuredState ⟨6, 9⟩ 1 (some c3Message))) = true
    ∧ hasNativeUnpin (handlerEffects
        (on_raw_reaction_add configuredState ⟨6, 9⟩ 1 (some c3Message))) = false
    ∧ (applyPinEffects c3Pins (handlerEffects
        (on_raw_reaction_add configuredState ⟨6, 9⟩ 1 (some c3Message)))).length = 50 := by
  refine ⟨rfl, rfl, rfl, rfl, rfl⟩

/-- C3 amended: `maybe_unpin` — invoked only from the pins-notification
handler, never from the reaction path — removes exactly the one oldest pin
(last element of the newest-first list) when the channel's pin count is at
least 49, and is a no-op when the list is shorter; the reaction-promotion
path itself performs no eviction before the new pin, so its pin count
immediately after promotion can exceed 49. -/
theorem c3_amended_eviction (pins : List Nat) (s : CogState) (ev : RawReaction)
    (g : Nat) (fetched : Option Message) (es : List Effect) (s2 : CogState)
    (hrun : on_raw_reaction_add s ev g fetched = Except.ok (es, s2)) :
    (49 ≤ pins.length →
      ∃ p, pins.getLast? = some p ∧ maybe_unpin pins = [Effect.nativeUnpin p])
    ∧ (pins.length < 49 → maybe_unpin pins = [])
    ∧ hasNativeUnpin es = false := by
  refine ⟨?_, ?_, on_raw_no_unpin s ev g fetched es s2 hrun⟩
  · intro h
    have hne : pins ≠ [] := by
      intro hnil
      rw [hnil] at h
      simp at h
    obtain ⟨p, hp⟩ := Option.isSome_iff_exists.mp (List.getLast?_isSome.mpr hne)
    refine ⟨p, hp, ?_⟩
    unfold maybe_unpin
    rw [if_pos (by omega), hp]
  · intro h
    unfold maybe_unpin
    rw [if_neg (by omega)]

/-- Witness for C3's amended theorem: a 49-long pin list and a concrete
successful handler run (a fetched message with no pushpin reaction). -/
theorem c3_amended_witness :
    (49 ≤ c3Pins.length →
      ∃ p, c3Pins.getLast? = some p ∧ maybe_unpin c3Pins = [Effect.nativeUnpin p])
    ∧ (c3Pins.length < 49 → maybe_unpin c3Pins = [])
    ∧ hasNativeUnpin (handlerEffects
        (on_raw_reaction_add emptyState ⟨2, 9⟩ 1 (some c3wMessage))) = false :=
  c3_amended_eviction c3Pins emptyState ⟨2, 9⟩ 1 (some c3wMessage)
    (handlerEffects (on_raw_reaction_add emptyState ⟨2, 9⟩ 1 (some c3wMessage)))
    (resStateOf (on_raw_reaction_add emptyState ⟨2, 9⟩ 1 (some c3wMessage)))
    (by rfl)

/-- C10: there is a configured message with no platform embeds and a single
non-image attachment whose filename has an unrecognizable content type on
which `archive_message`'s attachment scan dereferences the `None` result of
the content-type guess: an AttributeError escapes, so the attachment-scan
branch is not total over its public input space. -/
theorem c10_attachment_scan_not_total :
    truthyConfig (read_config configuredState 1 "archive_channel").value = true
    ∧ truthyConfig (read_config configuredState 1 "webhook_url").value = true
    ∧ c10Message.embeds = []
    ∧ guess_type "notes.xyz" = none
    ∧ archive_message configuredState c10Message
        = Except.error (PyError.attributeError "NoneType object has no attribute startswith") := by
  refine ⟨rfl, rfl, rfl, rfl, rfl⟩
